import Mathlib

/-!
Verification of the clipboard utilities `clip.py` and `unclip.py` from the
`talon-utilities` repository.  The Python functions are shallowly embedded as
pure Lean functions: the external effects (environment variables, search-path
lookups, subprocess execution, file system reads, keystrokes, randomness)
become explicit parameters, and printed stderr diagnostics become returned
lists of lines.
-/

namespace Clip

/-- Snapshot of the two display-related environment variables.  A field is
`true` when the corresponding variable is set to a non-empty string, which is
the Python truthiness of `os.environ.get("WAYLAND_DISPLAY")` and
`os.environ.get("DISPLAY")`. -/
structure Env where
  waylandDisplay : Bool
  display : Bool
  deriving DecidableEq

/-- Embedding of `clip.get_clipboard_command` (clip.py lines 42-80).
The `which` parameter answers the `shutil.which` search-path query.  The two
successive `if preferred == ... and shutil.which(...)` chains of the source
become the two match arms. -/
def get_clipboard_command (preferred : Option String) (env : Env)
    (which : String → Bool) : Option (List String) :=
  match preferred with
  | some p =>
    if p == "xclip" && which "xclip" then
      some ["xclip", "-selection", "clipboard"]
    else if p == "xsel" && which "xsel" then
      some ["xsel", "--clipboard", "--input"]
    else if p == "wl-copy" && which "wl-copy" then
      some ["wl-copy"]
    else
      none
  | none =>
    if env.waylandDisplay then
      if which "wl-copy" then some ["wl-copy"]
      else if which "xclip" then some ["xclip", "-selection", "clipboard"]
      else if which "xsel" then some ["xsel", "--clipboard", "--input"]
      else none
    else if env.display then
      if which "xclip" then some ["xclip", "-selection", "clipboard"]
      else if which "xsel" then some ["xsel", "--clipboard", "--input"]
      else if which "wl-copy" then some ["wl-copy"]
      else none
    else
      none

/-- Outcome of the single `subprocess.run` call inside
`copy_to_system_clipboard`: either the child process was spawned and exited
with `code`, or spawning itself failed (for example `FileNotFoundError` when
the program is not on the system). -/
inductive SpawnOutcome where
  | exited (code : Nat)
  | spawnFailure (msg : String)
  deriving DecidableEq

/-- Embedding of `clip.copy_to_system_clipboard` (clip.py lines 82-102).
`cmd` is the effective command after the `cmd is None` auto-resolution step.
With `check=True`, a non-zero exit raises `subprocess.CalledProcessError`,
which is a `subprocess.SubprocessError` and is caught, printing a diagnostic
and returning `False`.  A spawn failure such as `FileNotFoundError` is an
`OSError`, not a `subprocess.SubprocessError`, so the `except` clause does
not catch it and the exception propagates: this is modelled as
`Except.error` carrying the exception text. -/
def copy_to_system_clipboard (cmd : Option (List String))
    (run : SpawnOutcome) : Except String Bool :=
  match cmd with
  | none => Except.ok false
  | some _ =>
    match run with
    | SpawnOutcome.exited 0 => Except.ok true
    | SpawnOutcome.exited (_ + 1) => Except.ok false
    | SpawnOutcome.spawnFailure m => Except.error m

/-- Embedding of `clip.get_installation_instructions` (clip.py lines
104-119): installation guidance is a function of the display environment
alone. -/
def get_installation_instructions (env : Env) : String :=
  if env.waylandDisplay then
    "Please install \x27wl-copy\x27 (e.g., sudo dnf install wl-clipboard or sudo apt install wl-clipboard) for Wayland."
  else if env.display then
    "Please install \x27xclip\x27 (e.g., sudo dnf install xclip or sudo apt install xclip) or \x27xsel\x27 for X11."
  else
    "No graphical environment detected. Clipboard functionality requires a GUI environment."

/-- Per-file outcome of the effects performed by `clip.process_file`:
either `os.stat`/`open`/`read` (or anything else inside the `try`, including
an exception escaping `copy_to_system_clipboard`) raised with message `msg`;
or the clipboard copy returned `False`; or the copy succeeded and `getch`
returned the keystroke `key`. -/
inductive FileStep where
  | fileError (msg : String)
  | copyFailed
  | copied (key : Char)
  deriving DecidableEq

/-- Embedding of `clip.process_file` (clip.py lines 138-168).  The returned
pair is (continue to the next file?, stderr lines printed).  The stdout
chatter (file details and the keystroke prompt) is not modelled.  Python
`ch.lower() == 'q'` becomes `Char.toLower` (ASCII). -/
def process_file (filename : String) (step : FileStep) : Bool × List String :=
  match step with
  | FileStep.fileError m =>
      (false, ["Error processing file \x27" ++ filename ++ "\x27: " ++ m])
  | FileStep.copyFailed =>
      (false, ["Error: Clipboard copy failed for " ++ filename ++ "."])
  | FileStep.copied k =>
      (!(k.toLower == 'q'), [])

/-- Embedding of the interactive loop in `clip.main` (clip.py lines
305-308): `for filename in filenames: if not process_file(...): break`.
Returns how many files of the list were processed (reached by the loop
before it stopped). -/
def interactiveRun : List (String × FileStep) → Nat
  | [] => 0
  | (name, step) :: rest =>
      if (process_file name step).1 then 1 + interactiveRun rest else 1

/-- Embedding of the multi-file dispatch in `clip.main` (clip.py lines
300-313), reached when several filenames (or one filename together with a
mode flag) are given and a transport was resolved.  Returns
(exit status, number of files the interactive loop processed).
`streamOk` is the result of `process_files_stream`. -/
def mainMultiFile (interactive stream : Bool)
    (files : List (String × FileStep)) (streamOk : Bool) : Nat × Nat :=
  if !(interactive || stream) then
    (1, 0)
  else if interactive then
    (0, interactiveRun files)
  else if streamOk then
    (0, 0)
  else
    (1, 0)

/-- Metadata and content captured for one file by `process_files_stream`:
the formatted modification timestamp, the `st_size` from `os.stat`, and the
text read from the file. -/
structure FileData where
  modTs : String
  size : Nat
  content : String
  deriving DecidableEq

/-- Result of the `os.stat` plus `open`/`read` block for one file in
`process_files_stream`: the captured data, or the exception message. -/
abbrev ReadResult := Except String FileData

/-- Embedding of `os.path.basename(filename).upper()` as used at clip.py
line 198: the characters after the last `/`, upper-cased (ASCII). -/
def basenameUpper (filename : String) : String :=
  String.mk ((filename.data.foldl
    (fun acc c => if c = '/' then [] else acc ++ [c]) []).map Char.toUpper)

/-- The batch header line built at clip.py line 180. -/
def batch_header (username hostname cwd ts : String) : String :=
  "========BEGIN BATCH TRANSFER FROM " ++ username ++ "@" ++ hostname
    ++ ":" ++ cwd ++ " AT " ++ ts ++ "========\n"

/-- The per-file header line built at clip.py line 199. -/
def file_header (nameUpper modTs : String) : String :=
  "===========BEGIN " ++ nameUpper ++ ", MODIFIED " ++ modTs ++ "===========\n"

/-- The per-file footer line built at clip.py line 200. -/
def file_footer (nameUpper : String) (size : Nat) : String :=
  "===========END " ++ nameUpper ++ ", TOTAL " ++ toString size
    ++ " BYTES===========\n"

/-- The batch footer line built at clip.py line 205. -/
def batch_footer (totalFiles totalBytes : Nat) : String :=
  "========END BATCH TRANSFER, TOTAL " ++ toString totalFiles ++ " FILES, "
    ++ toString totalBytes ++ " bytes========\n"

/-- The pool of closing remarks at clip.py lines 206-227. -/
def witty_quips : List String :=
  ["(Transfer complete: the world is now your clipboard.)",
   "THANK YOU FOR USING TALON UTILITIES - NO CHARGE TO CALLING PARTY",
   "Clipboard assembled: mission accomplished!",
   "Operation \x27Copy-Paste\x27 successful. Onward!",
   "Your data has been delivered. Now go forth and paste.",
   "A flawless execution—clipboard now holds your treasures.",
   "Clipboard operation complete. You might want to brag about this.",
   "Files consolidated, clipboard activated. Let the pasting begin.",
   "Data fusion achieved—your clipboard is the new command center.",
   "Batch mode: engaged. Your files are now one with the clipboard.",
   "Data delivered—now go forth and paste like a champion.",
   "Clipboard updated. It’s not a revolution, just another day.",
   "Data transferred. Trust me, it’s barely impressive.",
   "Operation complete. Your clipboard now bears the burden of mediocrity.",
   "Files merged. The clipboard’s content is as cynical as its owner.",
   "Clipboard loaded. A small victory in an indifferent cosmos.",
   "Data delivered. Enjoy your clipboard, if you can muster enthusiasm.",
   "Mission accomplished. Your clipboard now holds what little hope remains.",
   "Copy operation successful. Don’t let it inflate your ego.",
   "Transfer complete. At least your clipboard works in an otherwise failing system.",
   "Files consolidated. In a universe of chaos, your clipboard stands as the lone obedient servant."]

/-- The decorative closing line at clip.py line 228: sixty equals signs and
a newline. -/
def ending_line : String :=
  String.mk (List.replicate 60 '=') ++ "\n"

/-- The `random.choice(witty_quips) + "\n"` step at clip.py line 231, with
the random draw modelled as an index reduced modulo the pool size. -/
def chooseQuip (i : Nat) : String :=
  (witty_quips.getD (i % witty_quips.length) "") ++ "\n"

/-- Concatenation of a fragment list, embedding `"".join(buffer_list)` at
clip.py line 234. -/
def joinAll : List String → String
  | [] => ""
  | s :: rest => s ++ joinAll rest

/-- The per-file loop of `clip.process_files_stream` (clip.py lines
185-203): the three fragments appended for each readable file, the running
file and byte totals, and immediate abort with the file name and exception
message at the first file whose stat or read fails. -/
def serializeFiles :
    List (String × ReadResult) → Except (String × String) (List String × Nat × Nat)
  | [] => Except.ok ([], 0, 0)
  | (name, Except.error e) :: _ => Except.error (name, e)
  | (name, Except.ok d) :: rest =>
    match serializeFiles rest with
    | Except.error x => Except.error x
    | Except.ok (frags, n, b) =>
        Except.ok (file_header (basenameUpper name) d.modTs
                     :: (d.content ++ "\n")
                     :: file_footer (basenameUpper name) d.size
                     :: frags,
                   n + 1, b + d.size)

/-- The buffer assembly of `clip.process_files_stream` (clip.py lines
180-234): batch header, the per-file fragments, batch footer, one closing
remark, and the decorative ending line, joined into the final buffer, or the
first file error. -/
def serializeBatch (username hostname cwd ts : String) (quipIdx : Nat)
    (files : List (String × ReadResult)) : Except (String × String) String :=
  match serializeFiles files with
  | Except.error x => Except.error x
  | Except.ok (frags, n, b) =>
      Except.ok (joinAll (batch_header username hostname cwd ts
        :: frags ++ [batch_footer n b, chooseQuip quipIdx, ending_line]))

/-- Embedding of `clip.process_files_stream` (clip.py lines 170-239) as a
whole: on a file error the function returns `False` before any clipboard
interaction; otherwise the joined buffer is handed to the writer exactly
once.  The second component records the payloads passed to
`copy_to_system_clipboard`. -/
def processFilesStream (username hostname cwd ts : String) (quipIdx : Nat)
    (files : List (String × ReadResult)) (write : String → Bool) :
    Bool × List String :=
  match serializeBatch username hostname cwd ts quipIdx files with
  | Except.error _ => (false, [])
  | Except.ok buf => (write buf, [buf])

/-- Specification-side helper, following the words of the spec (section
4.1): walk an ordered candidate list and return the invocation of the first
candidate whose program is present on the search path. -/
def specFirstAvailable : List (String × List String) → (String → Bool) →
    Option (List String)
  | [], _ => none
  | (name, inv) :: rest, which =>
      if which name then some inv else specFirstAvailable rest which

/-- The write-mode candidate order the spec documents for a Wayland
session: wl-copy, then xclip, then xsel, each with its canonical write-mode
invocation. -/
def waylandOrder : List (String × List String) :=
  [("wl-copy", ["wl-copy"]),
   ("xclip", ["xclip", "-selection", "clipboard"]),
   ("xsel", ["xsel", "--clipboard", "--input"])]

/-- The write-mode candidate order the spec documents for an X11 session:
xclip, then xsel, then wl-copy. -/
def x11Order : List (String × List String) :=
  [("xclip", ["xclip", "-selection", "clipboard"]),
   ("xsel", ["xsel", "--clipboard", "--input"]),
   ("wl-copy", ["wl-copy"])]

/-- Specification-side helper: the per-file block of the batch format,
header line, content with one appended newline, footer line. -/
def fileBlock (name : String) (d : FileData) : String :=
  file_header (basenameUpper name) d.modTs ++ (d.content ++ "\n")
    ++ file_footer (basenameUpper name) d.size

/-- Specification-side helper: the position of the first keystroke in a
list that case-insensitively equals q, if any. -/
def firstQuitIdx : List Char → Option Nat
  | [] => none
  | k :: rest =>
      if k.toLower == 'q' then some 0
      else (firstQuitIdx rest).map (· + 1)

/-- Specification-side helper: the flat fragment list the per-file loop
appends for a list of readable files. -/
def fileFrags (files : List (String × FileData)) : List String :=
  files.foldr
    (fun p acc =>
      file_header (basenameUpper p.1) p.2.modTs
        :: (p.2.content ++ "\n")
        :: file_footer (basenameUpper p.1) p.2.size
        :: acc)
    []

end Clip

namespace Unclip

/-- Outcome of one `subprocess.Popen` plus `communicate` call in unclip.py:
the child ran and produced `out` on stdout with exit status `code`, or the
spawn itself raised (for example a missing executable). -/
inductive RunOutcome where
  | ran (code : Nat) (out : String)
  | spawnError (msg : String)
  deriving DecidableEq

/-- Output a reader helper extracts from a run: the captured stdout when the
exit status is zero, and the empty string otherwise, because a non-zero
status raises `RuntimeError` and every exception is caught and converted to
the empty string (unclip.py lines 81-95, 103-117, 132-144). -/
def runOutput : RunOutcome → String
  | RunOutcome.ran 0 out => out
  | RunOutcome.ran (_ + 1) _ => ""
  | RunOutcome.spawnError _ => ""

/-- Embedding of `unclip.read_with_xclip` (unclip.py lines 75-95). -/
def read_with_xclip (r : RunOutcome) : String :=
  runOutput r

/-- Embedding of `unclip.read_with_xsel` (unclip.py lines 97-117). -/
def read_with_xsel (r : RunOutcome) : String :=
  runOutput r

/-- Embedding of `unclip.read_with_wlcopy` (unclip.py lines 119-144): the
function first checks that `wl-paste` is on the search path and returns the
empty string when it is not. -/
def read_with_wlcopy (whichWlPaste : Bool) (r : RunOutcome) : String :=
  if whichWlPaste then runOutput r else ""

/-- State of the fallback file `/tmp/clipboard.dat` as seen by
`read_from_fallback`: missing, present but unreadable (the read raised), or
present with contents. -/
inductive FallbackState where
  | absent
  | unreadable (msg : String)
  | present (contents : String)
  deriving DecidableEq

/-- Embedding of `unclip.read_from_fallback` (unclip.py lines 53-73).  The
pair is (returned text, stdout diagnostic lines, which are emitted only in
verbose mode). -/
def read_from_fallback (verbose : Bool) (fb : FallbackState) :
    String × List String :=
  match fb with
  | FallbackState.absent =>
      ("", if verbose
           then ["[ERROR] Fallback file /tmp/clipboard.dat does not exist."]
           else [])
  | FallbackState.unreadable m =>
      ("", if verbose
           then ["[ERROR] Could not read from fallback file: " ++ m]
           else [])
  | FallbackState.present s =>
      (s, if verbose
          then ["[INFO] Read fallback data from /tmp/clipboard.dat"]
          else [])

/-- All the external facts `detect_and_read` consults: the display
environment, search-path presence of the tools it guards on, the outcome of
each transport subprocess, and the fallback file state. -/
structure ReadWorld where
  wayland : Bool
  x11 : Bool
  whichXclip : Bool
  whichXsel : Bool
  whichWlPaste : Bool
  wlPasteRun : RunOutcome
  xclipRun : RunOutcome
  xselRun : RunOutcome
  fallback : FallbackState

/-- Embedding of `unclip.detect_and_read` (unclip.py lines 146-203).
Python `if data:` truthiness becomes a non-emptiness test.  The final
`is_tty_only` branch and the unreachable `Unexpected scenario` return both
read the fallback, so they collapse into the single final case. -/
def detect_and_read (verbose : Bool) (w : ReadWorld) : String :=
  if w.wayland then
    let d0 := read_with_wlcopy w.whichWlPaste w.wlPasteRun
    if d0 ≠ "" then d0
    else
      let d1 := if w.whichXclip then read_with_xclip w.xclipRun else ""
      if d1 ≠ "" then d1
      else
        let d2 := if w.whichXsel then read_with_xsel w.xselRun else ""
        if d2 ≠ "" then d2
        else (read_from_fallback verbose w.fallback).1
  else if w.x11 then
    let d1 := if w.whichXclip then read_with_xclip w.xclipRun else ""
    if d1 ≠ "" then d1
    else
      let d2 := if w.whichXsel then read_with_xsel w.xselRun else ""
      if d2 ≠ "" then d2
      else (read_from_fallback verbose w.fallback).1
  else
    (read_from_fallback verbose w.fallback).1

end Unclip

open Clip Unclip

theorem joinAll_append (a b : List String) :
    joinAll (a ++ b) = joinAll a ++ joinAll b := by
  induction a with
  | nil => simp [joinAll]
  | cons hd tl ih => simp [joinAll, ih, String.append_assoc]

theorem joinAll_fileFrags (files : List (String × FileData)) :
    joinAll (fileFrags files) = joinAll (files.map fun p => fileBlock p.1 p.2) := by
  induction files with
  | nil => rfl
  | cons hd tl ih =>
      have h1 : fileFrags (hd :: tl) =
          file_header (basenameUpper hd.1) hd.2.modTs
            :: (hd.2.content ++ "\n")
            :: file_footer (basenameUpper hd.1) hd.2.size
            :: fileFrags tl := rfl
      rw [h1]
      simp [joinAll, fileBlock, ih, String.append_assoc]

theorem serializeFiles_map_ok (files : List (String × FileData)) :
    serializeFiles (files.map fun p => (p.1, Except.ok p.2)) =
      Except.ok (fileFrags files, files.length,
        (files.map fun p => p.2.size).sum) := by
  induction files with
  | nil => rfl
  | cons hd tl ih =>
      simp [serializeFiles, ih, fileFrags, Nat.add_comm]

/-- Claim C1: with no explicit preference, transport resolution follows the
fixed priority order determined by the display environment (Wayland:
wl-copy, xclip, xsel; X11: xclip, xsel, wl-copy; headless: none); the first
candidate present on the search path is returned with its canonical
write-mode invocation, and `none` is returned exactly when no ordered
candidate exists. -/
theorem get_clipboard_command_priority (env : Env) (which : String → Bool) :
    get_clipboard_command none env which =
      (if env.waylandDisplay then specFirstAvailable waylandOrder which
       else if env.display then specFirstAvailable x11Order which
       else none)
    ∧ (specFirstAvailable waylandOrder which = none ↔
        which "wl-copy" = false ∧ which "xclip" = false ∧ which "xsel" = false)
    ∧ (specFirstAvailable x11Order which = none ↔
        which "xclip" = false ∧ which "xsel" = false ∧ which "wl-copy" = false) := by
  obtain ⟨wd, dp⟩ := env
  refine ⟨?_, ?_, ?_⟩
  · cases wd <;> cases dp <;>
      simp [get_clipboard_command, specFirstAvailable, waylandOrder, x11Order]
  · cases h1 : which "wl-copy" <;> cases h2 : which "xclip" <;>
      cases h3 : which "xsel" <;>
      simp [specFirstAvailable, waylandOrder, h1, h2, h3]
  · cases h1 : which "wl-copy" <;> cases h2 : which "xclip" <;>
      cases h3 : which "xsel" <;>
      simp [specFirstAvailable, x11Order, h1, h2, h3]

/-- Claim C5: when an explicit preference among xclip, xsel and wl-copy is
given and that program is absent from the search path, resolution returns
`none` (after printing an error naming the program); no fallback to any
other transport happens, whatever else `which` would find. -/
theorem preferred_transport_not_found (env : Env) (which : String → Bool)
    (p : String) (hp : p = "xclip" ∨ p = "xsel" ∨ p = "wl-copy")
    (habs : which p = false) :
    get_clipboard_command (some p) env which = none := by
  rcases hp with h | h | h <;> subst h <;>
    simp [get_clipboard_command, habs]

/-- Witness for claim C5: requesting xclip while only xsel and wl-copy are
on the search path yields `none` in an environment with both displays. -/
theorem preferred_transport_not_found_witness :
    get_clipboard_command (some "xclip") ⟨true, true⟩
      (fun s => !(s == "xclip")) = none :=
  preferred_transport_not_found ⟨true, true⟩ (fun s => !(s == "xclip"))
    "xclip" (Or.inl rfl) rfl

/-- Claim C4 counterexample: a spawn failure (the command not existing on
the system raises `FileNotFoundError`, which `except
subprocess.SubprocessError` does not catch) propagates as an unhandled
exception instead of producing a Failure return. -/
theorem copy_spawn_failure_raises :
    copy_to_system_clipboard (some ["wl-copy"])
      (SpawnOutcome.spawnFailure "No such file or directory: wl-copy") =
    Except.error "No such file or directory: wl-copy" := rfl

/-- Claim C4 (amended): for a resolved command, the writer reports success
exactly when the spawned command exits with status zero, a non-zero exit is
caught and reported as failure with no retry, an unresolved command reports
failure, but a spawn failure propagates as an exception. -/
theorem copy_exit_status_contract (l : List String) (c : Nat) (m : String) :
    copy_to_system_clipboard (some l) (SpawnOutcome.exited c) =
      Except.ok (c == 0)
    ∧ copy_to_system_clipboard (some l) (SpawnOutcome.spawnFailure m) =
      Except.error m
    ∧ copy_to_system_clipboard none (SpawnOutcome.exited c) =
      Except.ok false := by
  refine ⟨?_, rfl, rfl⟩
  cases c <;> rfl

/-- Claim C8 counterexample: on a clipboard failure for a file, the
interactive per-file handler prints only the failure message; none of the
three environment-dependent installation guidance strings appears in its
stderr output. -/
theorem process_file_copy_failure_no_guidance :
    process_file "a.txt" FileStep.copyFailed =
      (false, ["Error: Clipboard copy failed for a.txt."])
    ∧ get_installation_instructions ⟨true, false⟩ ∉
        (process_file "a.txt" FileStep.copyFailed).2
    ∧ get_installation_instructions ⟨false, true⟩ ∉
        (process_file "a.txt" FileStep.copyFailed).2
    ∧ get_installation_instructions ⟨false, false⟩ ∉
        (process_file "a.txt" FileStep.copyFailed).2 := by
  refine ⟨rfl, ?_, ?_, ?_⟩ <;> decide

/-- Claim C8 (amended): a writer failure for any file aborts the whole
walkthrough after that file and prints the failure message naming the file;
the installation guidance string is not part of this output. -/
theorem process_file_copy_failure_aborts (name : String)
    (rest : List (String × FileStep)) :
    process_file name FileStep.copyFailed =
      (false, ["Error: Clipboard copy failed for " ++ name ++ "."])
    ∧ interactiveRun ((name, FileStep.copyFailed) :: rest) = 1 :=
  ⟨rfl, by simp [interactiveRun, process_file]⟩

/-- Claim C10: the interactive multi-file branch of `main` exits with
status zero for every possible sequence of per-file outcomes — completion,
operator quit, file error or clipboard error are indistinguishable by exit
status. -/
theorem interactive_mode_exit_zero (stream : Bool)
    (files : List (String × FileStep)) (streamOk : Bool) :
    (mainMultiFile true stream files streamOk).1 = 0 := by
  simp [mainMultiFile]

/-- Claim C2: for a non-empty list of files that all stat and read successfully,
the serialized buffer is exactly one batch header, then per file in input
order a header line, the content region and a footer line stating that
file stat size, then a batch footer stating the file count and the sum of
the stat sizes, then one closing remark and the decorative closing line;
files are never re-ordered. -/
theorem serializeBatch_format (u h c ts : String) (i : Nat)
    (files : List (String × FileData)) (_hne : files ≠ []) :
    serializeBatch u h c ts i (files.map fun p => (p.1, Except.ok p.2)) =
      Except.ok (batch_header u h c ts
        ++ joinAll (files.map fun p => fileBlock p.1 p.2)
        ++ batch_footer files.length (files.map fun p => p.2.size).sum
        ++ chooseQuip i ++ ending_line) := by
  have hsf := serializeFiles_map_ok files
  simp [serializeBatch, hsf, joinAll, joinAll_append, joinAll_fileFrags,
    String.append_assoc]

/-- Witness for claim C2: the spec example of two files of 5 and 3 bytes
produces the documented layout with a footer stating 2 files and 8 bytes. -/
theorem serializeBatch_format_witness :
    serializeBatch "u" "host" "/w" "ts" 0
      ([("a.txt", (⟨"t1", 5, "hello"⟩ : FileData)),
        ("b.txt", (⟨"t2", 3, "hi!"⟩ : FileData))].map
          fun p => (p.1, Except.ok p.2)) =
      Except.ok (batch_header "u" "host" "/w" "ts"
        ++ joinAll ([("a.txt", (⟨"t1", 5, "hello"⟩ : FileData)),
            ("b.txt", (⟨"t2", 3, "hi!"⟩ : FileData))].map
              fun p => fileBlock p.1 p.2)
        ++ batch_footer 2 8
        ++ chooseQuip 0 ++ ending_line) :=
  serializeBatch_format "u" "host" "/w" "ts" 0
    [("a.txt", ⟨"t1", 5, "hello"⟩), ("b.txt", ⟨"t2", 3, "hi!"⟩)]
    (by simp)

theorem serializeFiles_first_error (okpre : List (String × FileData))
    (name msg : String) (rest : List (String × ReadResult)) :
    serializeFiles ((okpre.map fun p => (p.1, Except.ok p.2))
        ++ (name, Except.error msg) :: rest) =
      Except.error (name, msg) := by
  induction okpre with
  | nil => rfl
  | cons hd tl ih => simp [serializeFiles, ih]

/-- Claim C6: if any file of the batch fails to stat or read, stream-mode
serialization aborts with that first failing file path and reason, no
buffer is produced, and no payload is ever passed to the clipboard
writer. -/
theorem stream_abort_all_or_nothing (u h c ts : String) (i : Nat)
    (write : String → Bool) (okpre : List (String × FileData))
    (name msg : String) (rest : List (String × ReadResult)) :
    serializeBatch u h c ts i ((okpre.map fun p => (p.1, Except.ok p.2))
        ++ (name, Except.error msg) :: rest) =
      Except.error (name, msg)
    ∧ processFilesStream u h c ts i
        ((okpre.map fun p => (p.1, Except.ok p.2))
          ++ (name, Except.error msg) :: rest) write =
      (false, []) := by
  have hse := serializeFiles_first_error okpre name msg rest
  exact ⟨by simp [serializeBatch, hse],
         by simp [processFilesStream, serializeBatch, hse]⟩

/-- Claim C9: each file serialized in stream mode contributes its content
followed by exactly one appended newline before the END marker line, so the
content region always gains one byte and is never byte-identical to the
file content — in particular content already ending in a newline gains a
second one. -/
theorem stream_content_region (name : String) (d : FileData)
    (rest : List (String × ReadResult)) (frags : List String) (n b : Nat)
    (hrest : serializeFiles rest = Except.ok (frags, n, b)) :
    serializeFiles ((name, Except.ok d) :: rest) =
      Except.ok (file_header (basenameUpper name) d.modTs
                   :: (d.content ++ "\n")
                   :: file_footer (basenameUpper name) d.size :: frags,
                 n + 1, b + d.size)
    ∧ (d.content ++ "\n").length = d.content.length + 1
    ∧ d.content ++ "\n" ≠ d.content := by
  have hn : ("\n" : String).length = 1 := rfl
  refine ⟨by simp [serializeFiles, hrest], ?_, ?_⟩
  · rw [String.length_append, hn]
  · intro hEq
    have hlen := congrArg String.length hEq
    rw [String.length_append, hn] at hlen
    omega

/-- Witness for claim C9: a one-file batch whose content ends in a newline
serializes the content region with a second newline appended. -/
theorem stream_content_region_witness :
    serializeFiles [("a.txt", Except.ok (⟨"ts", 6, "hello\n"⟩ : FileData))] =
      Except.ok ([file_header (basenameUpper "a.txt") "ts",
                  "hello\n" ++ "\n",
                  file_footer (basenameUpper "a.txt") 6],
                 0 + 1, 0 + 6)
    ∧ (("hello\n" : String) ++ "\n").length = ("hello\n" : String).length + 1
    ∧ ("hello\n" : String) ++ "\n" ≠ "hello\n" :=
  stream_content_region "a.txt" ⟨"ts", 6, "hello\n"⟩ [] [] 0 0 rfl

/-- Claim C3: the reader cascade is a total function; whenever every
attempted transport yields empty output (failure and empty output act
identically, as the run-outcome conjuncts state), the cascade returns
exactly what the fallback read returns — the file contents when present,
and the empty string when the file is absent or unreadable, with the
missing-file diagnostic emitted only in verbose mode. -/
theorem detect_and_read_cascade (w : ReadWorld) (verbose : Bool)
    (h0 : read_with_wlcopy w.whichWlPaste w.wlPasteRun = "")
    (h1 : read_with_xclip w.xclipRun = "")
    (h2 : read_with_xsel w.xselRun = "") :
    detect_and_read verbose w = (read_from_fallback verbose w.fallback).1
    ∧ (∀ s, w.fallback = FallbackState.present s →
        detect_and_read verbose w = s)
    ∧ (w.fallback = FallbackState.absent → detect_and_read verbose w = "")
    ∧ (∀ m, w.fallback = FallbackState.unreadable m →
        detect_and_read verbose w = "")
    ∧ (read_from_fallback false FallbackState.absent).2 = []
    ∧ (read_from_fallback true FallbackState.absent).2 =
        ["[ERROR] Fallback file /tmp/clipboard.dat does not exist."]
    ∧ (∀ n out, runOutput (RunOutcome.ran (n + 1) out) = "")
    ∧ (∀ m, runOutput (RunOutcome.spawnError m) = "")
    ∧ runOutput (RunOutcome.ran 0 "") = "" := by
  have hmain : detect_and_read verbose w =
      (read_from_fallback verbose w.fallback).1 := by
    obtain ⟨wl, x11, wxc, wxs, wwp, rwp, rxc, rxs, fb⟩ := w
    cases wl <;> cases x11 <;> cases wxc <;> cases wxs <;>
      simp_all [detect_and_read]
  refine ⟨hmain, ?_, ?_, ?_, rfl, rfl, fun n out => rfl, fun m => rfl, rfl⟩
  · intro s hs; rw [hmain, hs]; rfl
  · intro hs; rw [hmain, hs]; rfl
  · intro m hm; rw [hmain, hm]; rfl

/-- Witness for claim C3: with wl-paste missing, xclip exiting non-zero and
xsel failing to spawn in a Wayland session, the cascade returns the
populated fallback file contents. -/
theorem detect_and_read_cascade_witness :
    detect_and_read true
      { wayland := true, x11 := false, whichXclip := true, whichXsel := true,
        whichWlPaste := false, wlPasteRun := RunOutcome.ran 0 "",
        xclipRun := RunOutcome.ran 2 "junk",
        xselRun := RunOutcome.spawnError "missing",
        fallback := FallbackState.present "stored" } = "stored" :=
  ((detect_and_read_cascade
      { wayland := true, x11 := false, whichXclip := true, whichXsel := true,
        whichWlPaste := false, wlPasteRun := RunOutcome.ran 0 "",
        xclipRun := RunOutcome.ran 2 "junk",
        xselRun := RunOutcome.spawnError "missing",
        fallback := FallbackState.present "stored" }
      true rfl rfl rfl).2.1) "stored" rfl

/-- Claim C7: in the interactive walkthrough, when every copy succeeds, the
number of files processed is exactly one more than the position of the
first keystroke that case-insensitively equals q, or the whole list when no
such keystroke occurs — any other key (SPACE included) advances, q leaves
all remaining files unprocessed, and a q-quit prints no diagnostic. -/
theorem interactive_walkthrough_quit (files : List (String × Char)) :
    interactiveRun (files.map fun p => (p.1, FileStep.copied p.2)) =
      (match firstQuitIdx (files.map Prod.snd) with
       | some i => i + 1
       | none => files.length)
    ∧ (∀ name k, (process_file name (FileStep.copied k)).2 = []) := by
  refine ⟨?_, fun name k => rfl⟩
  induction files with
  | nil => rfl
  | cons hd tl ih =>
      cases hq : hd.2.toLower == 'q' <;>
        simp only [List.map_cons, interactiveRun, process_file, firstQuitIdx,
          hq, Bool.not_false, Bool.not_true, if_true, if_false, ih] <;>
        cases hfq : firstQuitIdx (tl.map Prod.snd) <;>
        simp [hfq, Nat.add_comm, List.length_map]
